import Mathlib

/-!
Verification of the execution/output core of the magma-nvim plugin.

The Python sources are shallowly embedded below: pure functions become Lean
functions, in-place mutation becomes explicit state passing, exceptions become
`Except`, and the external file system / message transport become explicit
parameters.  Each definition's doc comment names the source function it embeds.
-/

namespace MagmaNvim

/-- Enum `OutputStatus` (outputchunks.py lines 185-188). -/
inductive OutputStatus where
  | HOLD
  | RUNNING
  | DONE
deriving DecidableEq, Repr

/-- Python enum `.value` of `OutputStatus` (HOLD = 0, RUNNING = 1, DONE = 2). -/
def OutputStatus.value : OutputStatus → Nat
  | .HOLD => 0
  | .RUNNING => 1
  | .DONE => 2

/-- Constructing `OutputStatus(v)` from an int, as Python `OutputStatus(cell["status"])`
does; an int outside 0..2 raises `ValueError`, modelled by `none`. -/
def OutputStatus.ofValue : Int → Option OutputStatus
  | 0 => some .HOLD
  | 1 => some .RUNNING
  | 2 => some .DONE
  | _ => none

/-- Enum `RuntimeState` (magma.py lines 284-287; `magma/runtime.py` imports it from
the `magma.runtime_state` module, whose content is this same enum). -/
inductive RuntimeState where
  | STARTING
  | IDLE
  | RUNNING
deriving DecidableEq, Repr

/-- Python enum `.value` of `RuntimeState` (STARTING = 0, IDLE = 1, RUNNING = 2). -/
def RuntimeState.value : RuntimeState → Nat
  | .STARTING => 0
  | .IDLE => 1
  | .RUNNING => 2

/-- A Jupyter mime bundle: a dict from mimetype to payload.  Payloads (and the
metadata dicts, which the code only stores and compares) are modelled as strings;
dicts are modelled as association lists in key-insertion order. -/
abbrev MimeBundle := List (String × String)

/-- Python `dict.get k`: the binding of the key, if present. -/
def pyGet (d : MimeBundle) (k : String) : Option String :=
  (d.find? (fun kv => kv.1 == k)).map (fun kv => kv.2)

/-- Python `list(dict.keys())`. -/
def pyKeys (d : MimeBundle) : List String :=
  d.map (fun kv => kv.1)

/-- Python `repr` of a list of strings, as used by the `%r` format specifier in
`BadOutputChunk` and `MimetypesOutputChunk`. -/
def pyReprStrList (xs : List String) : String :=
  "[" ++ String.intercalate ", " (xs.map (fun s => "\x27" ++ s ++ "\x27")) ++ "]"

/-- Python `sub in s` on strings: substring containment. -/
def pyStrContains (s sub : String) : Bool :=
  1 < (s.splitOn sub).length

/-- The renderable payload of an output chunk: the text chunk classes all reduce to
a stored string (outputchunks.py lines 43-101), and `ImageOutputChunk`
(lines 104-110) stores a materialized image path and a content checksum.
Pixel dimensions come from decoding the image with PIL and only feed the
renderer, so they are not modelled. -/
inductive ChunkKind where
  | text (text : String)
  | image (img_path : String) (img_checksum : String)
deriving DecidableEq, Repr

/-- `OutputChunk` (outputchunks.py lines 22-24): every chunk carries the optional raw
`(jupyter_data, jupyter_metadata)` pair it was derived from; the class attributes
default to `None`. -/
structure OutputChunk where
  kind : ChunkKind
  jupyter_data : Option MimeBundle := none
  jupyter_metadata : Option MimeBundle := none
deriving DecidableEq, Repr

/-- `TextOutputChunk.__init__` (outputchunks.py lines 43-47). -/
def TextOutputChunk (text : String) : OutputChunk :=
  { kind := ChunkKind.text text }

/-- `TextLnOutputChunk.__init__` (outputchunks.py lines 69-71): appends a newline. -/
def TextLnOutputChunk (text : String) : OutputChunk :=
  TextOutputChunk (text ++ "\n")

/-- `BadOutputChunk.__init__` (outputchunks.py lines 74-78): the "no usable mimetype"
marker chunk. -/
def BadOutputChunk (mimetypes : List String) : OutputChunk :=
  TextLnOutputChunk
    ("<No usable MIMEtype! Received mimetypes " ++ pyReprStrList mimetypes ++ ">")

/-- `MimetypesOutputChunk.__init__` (outputchunks.py lines 81-83). -/
def MimetypesOutputChunk (mimetypes : List String) : OutputChunk :=
  TextLnOutputChunk ("[DEBUG] Received mimetypes: " ++ pyReprStrList mimetypes)

/-- `ErrorOutputChunk.__init__` (outputchunks.py lines 86-96). -/
def ErrorOutputChunk (name message : String) (traceback : List String) : OutputChunk :=
  TextLnOutputChunk
    (String.intercalate "\n"
      (["[Error] " ++ name ++ ": " ++ message, "Traceback:"] ++ traceback))

/-- `AbortedOutputChunk.__init__` (outputchunks.py lines 99-101). -/
def AbortedOutputChunk : OutputChunk :=
  TextLnOutputChunk "<Kernel aborted with no error message.>"

/-- `ImageOutputChunk.__init__` (outputchunks.py lines 104-110), dropping the pixel
shape (render-only data). -/
def ImageOutputChunk (img_path img_checksum : String) : OutputChunk :=
  { kind := ChunkKind.image img_path img_checksum }

/-- `Output` (outputchunks.py lines 191-207).  The field `old` marks outputs loaded
from a persisted session; `should_clear` embeds the private `_should_clear` flag. -/
structure Output where
  execution_count : Option Int
  chunks : List OutputChunk
  status : OutputStatus
  success : Bool
  old : Bool
  should_clear : Bool
deriving DecidableEq, Repr

/-- `Output.__init__` (outputchunks.py lines 200-207). -/
def Output.new (execution_count : Option Int) : Output :=
  { execution_count := execution_count
    status := OutputStatus.HOLD
    chunks := []
    success := true
    old := false
    should_clear := false }

/-- `MagmaOptions` (options.py): the flat configuration surface with its defaults. -/
structure MagmaOptions where
  automatically_open_output : Bool := true
  wrap_output : Bool := false
  output_window_borders : Bool := true
  show_mimetype_debug : Bool := false
  cell_highlight_group : String := "CursorLine"
  save_path : String := ""
  image_provider : String := "none"
  copy_output : Bool := false
  enter_output_behavior : String := "open_then_enter"
deriving DecidableEq, Repr

/-- The modelled state of `JupyterRuntime` (runtime.py lines 24-33): the kernel
manager/client objects are external transport handles and are not modelled. -/
structure JupyterRuntime where
  state : RuntimeState
  kernel_name : String
  external_kernel : Bool
  allocated_files : List String
  options : MagmaOptions
deriving DecidableEq, Repr

/-- `JupyterRuntime.__init__` (runtime.py lines 35-83).  The three branches differ
only in how the kernel transport is connected (HTTP server, locally launched
kernel, or an existing connection file); every branch sets
`external_kernel = True`, `state = STARTING` and `allocated_files = []`. -/
def JupyterRuntime.init (kernel_name : String) (options : MagmaOptions) : JupyterRuntime :=
  if kernel_name.startsWith "http://" || kernel_name.startsWith "https://" then
    { state := RuntimeState.STARTING
      kernel_name := kernel_name
      external_kernel := true
      allocated_files := []
      options := options }
  else if !(pyStrContains kernel_name ".json") then
    { state := RuntimeState.STARTING
      kernel_name := kernel_name
      external_kernel := true
      allocated_files := []
      options := options }
  else
    { state := RuntimeState.STARTING
      kernel_name := kernel_name
      external_kernel := true
      allocated_files := []
      options := options }

/-- `JupyterRuntime.is_ready` (runtime.py lines 85-86). -/
def JupyterRuntime.is_ready (rt : JupyterRuntime) : Bool :=
  RuntimeState.STARTING.value < rt.state.value

/-- `JupyterRuntime.deinit` (runtime.py lines 88-94), over a model file system given
as the list of existing paths (`os.path.exists` is membership, `os.remove` is
erasure).  Returns the remaining paths and whether `kernel_client.shutdown()`
was invoked (which the code guards with `if self.external_kernel is False`). -/
def JupyterRuntime.deinit (rt : JupyterRuntime) (fs : List String) : List String × Bool :=
  let fs := rt.allocated_files.foldl
    (fun acc path => if acc.contains path then acc.erase path else acc) fs
  (fs, rt.external_kernel == false)

/-- `JupyterRuntime.interrupt` (runtime.py lines 96-97): signals the kernel process;
no modelled state changes. -/
def JupyterRuntime.interrupt (rt : JupyterRuntime) : JupyterRuntime := rt

/-- `JupyterRuntime.restart` (runtime.py lines 99-101). -/
def JupyterRuntime.restart (rt : JupyterRuntime) : JupyterRuntime :=
  { rt with state := RuntimeState.STARTING }

/-- `JupyterRuntime.run_code` (runtime.py lines 103-104): submits the code on the
kernel channel and returns; the function body has no return statement, so its
value is Python `None`. -/
def JupyterRuntime.run_code (rt : JupyterRuntime) (code : String) : Option Output :=
  none

/-- `JupyterRuntime._alloc_file` (runtime.py lines 106-115): materializes a fresh
temp file with the given extension and appends its path to `allocated_files`.
The fresh `tempfile` name is modelled by indexing. -/
def JupyterRuntime.alloc_file (rt : JupyterRuntime) (extension : String) :
    String × JupyterRuntime :=
  let path := "/tmp/magma-" ++ toString rt.allocated_files.length ++ "." ++ extension
  (path, { rt with allocated_files := rt.allocated_files ++ [path] })

/-- Content hashing of a materialized image (`hashlib.md5(...).hexdigest()` in
`_to_image_chunk`, outputchunks.py lines 218-227), modelled as a tag of the
payload the image was decoded from. -/
def md5Model (payload : String) : String :=
  "md5:" ++ payload

/-- Which optional external renderers are importable; an unavailable one raises
`ImportError` inside its `process_func`, which `to_outputchunk` turns into
falling through to the next priority tier. -/
structure RenderAvail where
  image_png : Bool := true
  image_svgxml : Bool := true
  application_plotly : Bool := true
  latex : Bool := true
deriving DecidableEq, Repr

/-- `to_outputchunk` (outputchunks.py lines 210-289): resolve a mime bundle to one
chunk by the fixed priority order png, svg, plotly, latex, plain text, with the
`BadOutputChunk` fallback; every image tier allocates one temp file through
`alloc_file`.  Whatever chunk results, the raw `(data, metadata)` pair is
attached to it (lines 286-287). -/
def to_outputchunk (rt : JupyterRuntime) (avail : RenderAvail)
    (data : MimeBundle) (metadata : MimeBundle) : OutputChunk × JupyterRuntime :=
  let attach := fun (chunk : OutputChunk) (rt1 : JupyterRuntime) =>
    ({ chunk with jupyter_data := some data, jupyter_metadata := some metadata }, rt1)
  match pyGet data "image/png", avail.image_png with
  | some imgdata, true =>
      let pr := rt.alloc_file "png"
      attach (ImageOutputChunk pr.1 (md5Model imgdata)) pr.2
  | _, _ =>
  match pyGet data "image/svg+xml", avail.image_svgxml with
  | some svg, true =>
      let pr := rt.alloc_file "png"
      attach (ImageOutputChunk pr.1 (md5Model svg)) pr.2
  | _, _ =>
  match pyGet data "application/vnd.plotly.v1+json", avail.application_plotly with
  | some figure_json, true =>
      let pr := rt.alloc_file "png"
      attach (ImageOutputChunk pr.1 (md5Model figure_json)) pr.2
  | _, _ =>
  match pyGet data "text/latex", avail.latex with
  | some tex, true =>
      let pr := rt.alloc_file "png"
      attach (ImageOutputChunk pr.1 (md5Model tex)) pr.2
  | _, _ =>
  match pyGet data "text/plain" with
  | some text => attach (TextLnOutputChunk text) rt
  | none => attach (BadOutputChunk (pyKeys data)) rt

/-- The chunk-persistence guard of `save` (io.py lines 126-127 and the identical
comprehension filter in `magma/__init__.py`): a chunk is persisted iff both raw
fields are attached. -/
def chunkIsPersisted (chunk : OutputChunk) : Bool :=
  chunk.jupyter_data.isSome && chunk.jupyter_metadata.isSome

/-- Exceptions that escape the embedded Python code. -/
inductive PyExc where
  | assertionError
  | valueError (msg : String)
  | magmaIoError (msg : String)
  | magmaException (msg : String)
deriving DecidableEq, Repr

/-- The well-formed iopub messages classified by `_tick_one` (one constructor per
`msg_type`, carrying the `content` fields the handler reads). -/
inductive Message where
  | execute_input (execution_count : Int)
  | status (execution_state : String)
  | execute_reply
  | execute_result (data : MimeBundle) (metadata : MimeBundle)
  | error (ename : String) (evalue : String) (traceback : List String)
  | stream (text : String)
  | display_data (data : MimeBundle) (metadata : MimeBundle)
  | update_display_data
  | clear_output (wait : Bool)
  | other (msg_type : String)
deriving DecidableEq, Repr

/-- `JupyterRuntime._append_chunk` (runtime.py lines 117-123). -/
def JupyterRuntime.append_chunk (rt : JupyterRuntime) (avail : RenderAvail)
    (output : Output) (data metadata : MimeBundle) : JupyterRuntime × Output :=
  let output :=
    if rt.options.show_mimetype_debug then
      { output with chunks := output.chunks ++ [MimetypesOutputChunk (pyKeys data)] }
    else output
  let cr := to_outputchunk rt avail data metadata
  (cr.2, { output with chunks := output.chunks ++ [cr.1] })

/-- `JupyterRuntime._tick_one` (runtime.py lines 125-203).  `copy_on_demand` only
writes the system clipboard, so it does not appear in the modelled state.  The
`assert` statements become `PyExc.assertionError`; the `raise ValueError` arm of
the `execute_input` handler is unreachable once the preceding assert has ruled
out `DONE`, since the match on the remaining two statuses is exhaustive. -/
def JupyterRuntime.tick_one (rt : JupyterRuntime) (avail : RenderAvail)
    (output : Output) (msg : Message) :
    Except PyExc (JupyterRuntime × Output × Bool) :=
  let output :=
    if output.should_clear then
      { output with chunks := [], should_clear := false }
    else output
  match msg with
  | .execute_input execution_count =>
      let output := { output with execution_count := some execution_count }
      if rt.external_kernel == false then
        match output.status with
        | .DONE => .error PyExc.assertionError
        | .HOLD => .ok (rt, { output with status := OutputStatus.RUNNING }, true)
        | .RUNNING => .ok (rt, { output with status := OutputStatus.DONE }, true)
      else
        .ok (rt, output, true)
  | .status execution_state =>
      if execution_state == "starting" then
        .error PyExc.assertionError
      else if execution_state == "idle" then
        .ok ({ rt with state := RuntimeState.IDLE },
             { output with status := OutputStatus.DONE }, true)
      else if execution_state == "busy" then
        .ok ({ rt with state := RuntimeState.RUNNING }, output, true)
      else
        .ok (rt, output, false)
  | .execute_reply =>
      .ok (rt, output, false)
  | .execute_result data metadata =>
      let ro := rt.append_chunk avail output data metadata
      .ok (ro.1, ro.2, true)
  | .error ename evalue traceback =>
      .ok (rt, { output with
                  chunks := output.chunks ++ [ErrorOutputChunk ename evalue traceback]
                  success := false }, true)
  | .stream text =>
      .ok (rt, { output with chunks := output.chunks ++ [TextOutputChunk text] }, true)
  | .display_data data metadata =>
      let ro := rt.append_chunk avail output data metadata
      .ok (ro.1, ro.2, true)
  | .update_display_data =>
      .ok (rt, output, false)
  | .clear_output wait =>
      if wait then
        .ok (rt, { output with should_clear := true }, true)
      else
        .ok (rt, { output with chunks := [] }, true)
  | .other _ =>
      .ok (rt, output, false)

/-- The message-drain loop of `JupyterRuntime.tick` (runtime.py lines 224-240) over
the currently queued inbound messages.  A `none` entry is a message missing its
`content` or `msg_type` key, which the loop skips with `continue`.  Returns the
runtime, the output, the messages left unread in the queue, and the accumulated
`did_stuff`. -/
def JupyterRuntime.tick_loop (rt : JupyterRuntime) (avail : RenderAvail) (output : Output) :
    List (Option Message) →
    Except PyExc (JupyterRuntime × Output × List (Option Message) × Bool)
  | [] => .ok (rt, output, [], false)
  | none :: rest => rt.tick_loop avail output rest
  | some msg :: rest =>
      match rt.tick_one avail output msg with
      | .error e => .error e
      | .ok (rt1, output1, did_stuff_now) =>
          if output1.status == OutputStatus.DONE then
            .ok (rt1, output1, rest, did_stuff_now)
          else
            match rt1.tick_loop avail output1 rest with
            | .error e => .error e
            | .ok (rt2, output2, rest2, did_rest) =>
                .ok (rt2, output2, rest2, did_stuff_now || did_rest)

/-- `JupyterRuntime.tick` (runtime.py lines 205-241).  `ready_now` models whether
`kernel_client.wait_for_ready(timeout=0)` succeeds while the runtime is still
`STARTING` (on failure the method returns `False` at once); `msgs` is the
current content of the inbound iopub queue, from which `get_iopub_msg(timeout=0)`
pops until `EmptyQueueException`. -/
def JupyterRuntime.tick (rt : JupyterRuntime) (avail : RenderAvail) (ready_now : Bool)
    (output : Option Output) (msgs : List (Option Message)) :
    Except PyExc (JupyterRuntime × Option Output × List (Option Message) × Bool) :=
  if rt.is_ready == false then
    if ready_now then
      let rt := { rt with state := RuntimeState.IDLE }
      match output with
      | none => .ok (rt, none, msgs, true)
      | some out =>
          match rt.tick_loop avail out msgs with
          | .error e => .error e
          | .ok (rt1, out1, rest, _) => .ok (rt1, some out1, rest, true)
    else
      .ok (rt, output, msgs, false)
  else
    match output with
    | none => .ok (rt, output, msgs, false)
    | some out =>
        match rt.tick_loop avail out msgs with
        | .error e => .error e
        | .ok (rt1, out1, rest, did) => .ok (rt1, some out1, rest, did)

/-- `Position` (utils.py lines 80-94): a buffer number plus 0-based line/column.
`DynamicPosition` resolves its coordinates through a document extmark on every
read; against an unmodified document it resolves to the coordinates it was
created at, which is how it appears here. -/
structure Position where
  bufno : Int
  lineno : Int
  colno : Int
deriving DecidableEq, Repr

/-- `Position.__le__`: Python tuple comparison `(lineno, colno) <= ...`. -/
def Position.le (a b : Position) : Bool :=
  a.lineno < b.lineno || (a.lineno == b.lineno && a.colno ≤ b.colno)

/-- `Position.__lt__`: Python tuple comparison `(lineno, colno) < ...`. -/
def Position.lt (a b : Position) : Bool :=
  a.lineno < b.lineno || (a.lineno == b.lineno && a.colno < b.colno)

/-- `Span` (utils.py lines 126-135).  Spans are dict keys hashed and compared by
object identity of the underlying anchors, modelled by `id`; the source fields
`begin`/`end` become `begin_pos`/`end_pos` (`end` is reserved in Lean). -/
structure Span where
  id : Nat
  begin_pos : Position
  end_pos : Position
deriving DecidableEq, Repr

/-- `Span.__contains__` (utils.py lines 134-135): `begin <= pos and pos < end`. -/
def Span.contains (span : Span) (pos : Position) : Bool :=
  span.begin_pos.le pos && pos.lt span.end_pos

/-- The modelled state of `MagmaBuffer` (shared by magmabuffer.py lines 16-65 and
the duplicate class in `magma/__init__.py` lines 27-74).  The ledger `outputs`
is a `Span`-keyed dict in insertion order; its values are `Option Output`
because Python is untyped here: `run_code` stores the result of
`JupyterRuntime.run_code` (which is `None`) while `load` stores real outputs.
The display handles and nvim references are not modelled; `bufno` is
`buffer.number`. -/
structure MagmaBuffer where
  runtime : JupyterRuntime
  bufno : Int
  outputs : List (Span × Option Output)
  current_output : Option Output
  queued_outputs : List (Option Output)
  selected_cell : Option Span
  should_open_display_window : Bool
  options : MagmaOptions
deriving DecidableEq, Repr

/-- `MagmaBuffer.__init__` (the state initialization on lines 53-65 of
magmabuffer.py). -/
def MagmaBuffer.init (bufno : Int) (options : MagmaOptions) (kernel_name : String) :
    MagmaBuffer :=
  { runtime := JupyterRuntime.init kernel_name options
    bufno := bufno
    outputs := []
    current_output := none
    queued_outputs := []
    selected_cell := none
    should_open_display_window := false
    options := options }

/-- Python `span in self.outputs`: dict membership by span identity. -/
def ledgerContains (outputs : List (Span × Option Output)) (span : Span) : Bool :=
  outputs.any (fun kv => kv.1.id == span.id)

/-- Python `del self.outputs[span]`: removal by span identity. -/
def ledgerErase (outputs : List (Span × Option Output)) (span : Span) :
    List (Span × Option Output) :=
  outputs.filter (fun kv => !(kv.1.id == span.id))

/-- `MagmaBuffer._check_if_done_running` (magmabuffer.py lines 113-119): promote the
next queued entry to `current_output` when idle.  A `current_output` holding the
Python value `None` (stored by `run_code`) satisfies `current_output is None`. -/
def MagmaBuffer.check_if_done_running (mb : MagmaBuffer) : MagmaBuffer :=
  let is_idle :=
    match mb.current_output with
    | none => true
    | some out => out.status == OutputStatus.DONE
  match is_idle, mb.queued_outputs with
  | true, q :: rest => { mb with current_output := q, queued_outputs := rest }
  | _, _ => mb

/-- `MagmaBuffer.run_code` (magmabuffer.py lines 90-102).  `update_interface` only
redraws the display from the state set here and moves `selected_cell` to the
span under the cursor, so it is not modelled. -/
def MagmaBuffer.run_code (mb : MagmaBuffer) (code : String) (span : Span) : MagmaBuffer :=
  let new_output := mb.runtime.run_code code
  let outputs :=
    if ledgerContains mb.outputs span then ledgerErase mb.outputs span else mb.outputs
  let mb :=
    { mb with
        outputs := outputs ++ [(span, new_output)]
        queued_outputs := mb.queued_outputs ++ [new_output]
        selected_cell := some span
        should_open_display_window := true }
  mb.check_if_done_running

/-- `MagmaBuffer._get_selected_span` (magmabuffer.py lines 220-228): scan the ledger
keys in reverse insertion order and return the first span containing the cursor
position. -/
def MagmaBuffer.get_selected_span (mb : MagmaBuffer) (current_position : Position) :
    Option Span :=
  (mb.outputs.map Prod.fst).reverse.find? (fun span => span.contains current_position)

/-- One cell of the persisted-session payload, as produced by `save` and consumed
by `load`.  `execution_count` is `Option Int` because `json` serializes a
still-unset count as `null`, which `load`'s `isinstance(value, int)` check then
rejects. -/
structure SaveCell where
  begin_lineno : Int
  begin_colno : Int
  end_lineno : Int
  end_colno : Int
  execution_count : Option Int
  status : Int
  success : Bool
  chunks : List (MimeBundle × MimeBundle)
deriving DecidableEq, Repr

/-- The persisted-session payload: `{version, kernel, content_checksum, cells}`. -/
structure SaveData where
  version : Int
  kernel : String
  content_checksum : String
  cells : List SaveCell
deriving DecidableEq, Repr

/-- `OutputBuffer` (outputbuffer.py lines 12-34): display state plus the `output`
field, which `__init__` sets to a fresh `Output(None)`. -/
structure OutputBuffer where
  output : Output
deriving DecidableEq, Repr

/-- `OutputBuffer.__init__` (outputbuffer.py line 27). -/
def OutputBuffer.new : OutputBuffer :=
  { output := Output.new none }

/-- `save` (io.py lines 100-132): serialize the kernel name, the current document
checksum and every ledger cell; only chunks with both raw fields attached are
persisted.  Here the ledger values are `OutputBuffer`s (`save` reads
`output.output.…`). -/
def save (kernel_name : String) (content_checksum : String)
    (outputs : List (Span × OutputBuffer)) : SaveData :=
  { version := 1
    kernel := kernel_name
    content_checksum := content_checksum
    cells := outputs.map (fun kv =>
      { begin_lineno := kv.1.begin_pos.lineno
        begin_colno := kv.1.begin_pos.colno
        end_lineno := kv.1.end_pos.lineno
        end_colno := kv.1.end_pos.colno
        execution_count := kv.2.output.execution_count
        status := (kv.2.output.status.value : Int)
        success := kv.2.output.success
        chunks := kv.2.output.chunks.filterMap (fun chunk =>
          match chunk.jupyter_data, chunk.jupyter_metadata with
          | some d, some m => some (d, m)
          | _, _ => none) }) }

/-- The per-cell reconstruction shared by both `load` implementations (io.py
lines 47-93 and `magma/__init__.py` lines 310-351): build the span at the saved
coordinates (fresh extmark-backed positions, numbered from `next_span_id`) and
rebuild the `Output` from the saved fields, re-running `to_outputchunk` on each
persisted chunk (which allocates temp files on the runtime). -/
def loadCell (rt : JupyterRuntime) (avail : RenderAvail) (bufno : Int)
    (next_span_id : Nat) (cell : SaveCell) :
    Except PyExc (Span × Output × JupyterRuntime) :=
  let span : Span :=
    { id := next_span_id
      begin_pos := { bufno := bufno, lineno := cell.begin_lineno, colno := cell.begin_colno }
      end_pos := { bufno := bufno, lineno := cell.end_lineno, colno := cell.end_colno } }
  match cell.execution_count with
  | none => .error (PyExc.magmaIoError "Incorrect type for key: execution_count")
  | some n =>
    match OutputStatus.ofValue cell.status with
    | none => .error (PyExc.valueError "not a valid OutputStatus")
    | some st =>
      let output := Output.new (some n)
      let output := { output with status := st, success := cell.success }
      let acc := cell.chunks.foldl
        (fun (acc : JupyterRuntime × List OutputChunk) ch =>
          let cr := to_outputchunk acc.1 avail ch.1 ch.2
          (cr.2, acc.2 ++ [cr.1]))
        (rt, [])
      let output := { output with chunks := acc.2, old := true }
      .ok (span, output, acc.1)

/-- The cell loop of `load` in io.py (lines 46-97): each reconstructed `output` is
built and then *discarded* — the ledger entry stored for the cell's span is a
fresh `OutputBuffer(...)` (line 95).  On an error the mutations already made
persist, so the partially filled ledger is returned with the exception. -/
def loadCellsIo (rt : JupyterRuntime) (avail : RenderAvail) (bufno : Int)
    (next_span_id : Nat) (outputs : List (Span × OutputBuffer)) :
    List SaveCell →
    (List (Span × OutputBuffer) × JupyterRuntime × Nat × Except PyExc Unit)
  | [] => (outputs, rt, next_span_id, .ok ())
  | cell :: rest =>
      match loadCell rt avail bufno next_span_id cell with
      | .error e => (outputs, rt, next_span_id, .error e)
      | .ok (span, _output, rt1) =>
          loadCellsIo rt1 avail bufno (next_span_id + 1)
            (outputs ++ [(span, OutputBuffer.new)]) rest

/-- `load` (io.py lines 39-97): compare the recomputed document checksum with the
saved one (mismatch is a hard `MagmaIOError`), then run the cell loop.
`current_checksum` is `magmabuffer._get_content_checksum()`. -/
def load (current_checksum : String) (rt : JupyterRuntime) (avail : RenderAvail)
    (bufno : Int) (next_span_id : Nat) (outputs : List (Span × OutputBuffer))
    (data : SaveData) :
    (List (Span × OutputBuffer) × JupyterRuntime × Nat × Except PyExc Unit) :=
  if !(current_checksum == data.content_checksum) then
    (outputs, rt, next_span_id,
      .error (PyExc.magmaIoError "Buffer contents\x27 checksum does not match!"))
  else
    loadCellsIo rt avail bufno next_span_id outputs data.cells

/-- The cell loop of `MagmaBuffer.load` in `magma/__init__.py` (lines 309-353),
which — unlike io.py — stores each reconstructed output in the ledger
(`self.outputs[span] = output`, line 353). -/
def MagmaBuffer.load_cells (mb : MagmaBuffer) (avail : RenderAvail)
    (next_span_id : Nat) :
    List SaveCell → (MagmaBuffer × Nat × Except PyExc Unit)
  | [] => (mb, next_span_id, .ok ())
  | cell :: rest =>
      match loadCell mb.runtime avail mb.bufno next_span_id cell with
      | .error e => (mb, next_span_id, .error e)
      | .ok (span, output, rt1) =>
          MagmaBuffer.load_cells
            { mb with runtime := rt1, outputs := mb.outputs ++ [(span, some output)] }
            avail (next_span_id + 1) rest

/-- `MagmaBuffer.load` (`magma/__init__.py` lines 303-353): the checksum gate
followed by the cell loop.  Mutations made before an exception persist in the
returned buffer. -/
def MagmaBuffer.load (mb : MagmaBuffer) (current_checksum : String)
    (avail : RenderAvail) (next_span_id : Nat) (data : SaveData) :
    MagmaBuffer × Nat × Except PyExc Unit :=
  if !(current_checksum == data.content_checksum) then
    (mb, next_span_id,
      .error (PyExc.magmaIoError "Buffer contents\x27 checksum does not match!"))
  else
    mb.load_cells avail next_span_id data.cells

/-- The plugin-level state of the `Magma` class (`magma/__init__.py` lines 383-401):
the registry mapping buffer numbers to their `MagmaBuffer` sessions. -/
structure Magma where
  buffers : List (Int × MagmaBuffer)
deriving DecidableEq, Repr

/-- Registry lookup `self.buffers.get(bufno)`. -/
def Magma.get_buffer (plugin : Magma) (bufno : Int) : Option MagmaBuffer :=
  (plugin.buffers.find? (fun kv => kv.1 == bufno)).map (fun kv => kv.2)

/-- `Magma._initialize_buffer` (`magma/__init__.py` lines 479-493): create a
session for the current buffer and register it. -/
def Magma.initialize_buffer (plugin : Magma) (bufno : Int) (options : MagmaOptions)
    (kernel_name : String) : Magma × MagmaBuffer :=
  let mb := MagmaBuffer.init bufno options kernel_name
  ({ buffers := plugin.buffers ++ [(bufno, mb)] }, mb)

/-- `Magma._deinit_buffer` (`magma/__init__.py` lines 507-509): call the session's
`deinit` and drop it from the registry. -/
def Magma.deinit_buffer (plugin : Magma) (mb : MagmaBuffer) (fs : List String) :
    Magma × List String :=
  let fb := mb.runtime.deinit fs
  ({ buffers := plugin.buffers.filter (fun kv => !(kv.1 == mb.bufno)) }, fb.1)

/-- `Magma.command_load` (`magma/__init__.py` lines 608-641) applied to the parsed
file payload.  `cur_bufno` is the current buffer, `doc_checksum` its current
content checksum, `fs` the model file system, and the second component of the
result records the sessions `_deinit_buffer` tore down during the call.  Only
`MagmaIOError` is caught by the `except` clause; other exceptions propagate
with the registry mutations left in place. -/
def Magma.command_load (plugin : Magma) (cur_bufno : Int) (doc_checksum : String)
    (options : MagmaOptions) (avail : RenderAvail) (fs : List String)
    (next_span_id : Nat) (data : SaveData) :
    Magma × List MagmaBuffer × List String × Except PyExc Unit :=
  match plugin.get_buffer cur_bufno with
  | some _ =>
      (plugin, [], fs,
        .error (PyExc.magmaException
          "Magma is already initialized; MagmaLoad initializes Magma."))
  | none =>
    if !(data.version == 1) then
      (plugin, [], fs,
        .error (PyExc.magmaException
          ("Error while doing Magma IO: Bad version: " ++ toString data.version)))
    else
      let pm := plugin.initialize_buffer cur_bufno options data.kernel
      let plugin := pm.1
      let lr := pm.2.load doc_checksum avail next_span_id data
      match lr.2.2 with
      | .ok _ =>
          ({ buffers := plugin.buffers.map
              (fun kv => if kv.1 == cur_bufno then (kv.1, lr.1) else kv) },
           [], fs, .ok ())
      | .error (PyExc.magmaIoError msg) =>
          let pf := plugin.deinit_buffer lr.1 fs
          (pf.1, [lr.1], pf.2,
            .error (PyExc.magmaException ("Error while doing Magma IO: " ++ msg)))
      | .error e =>
          ({ buffers := plugin.buffers.map
              (fun kv => if kv.1 == cur_bufno then (kv.1, lr.1) else kv) },
           [], fs, .error e)

/-- The chunk list `save` persists for one output (the comprehension with its
filter on io.py lines 120-128). -/
def savedChunksOf (output : Output) : List (MimeBundle × MimeBundle) :=
  output.chunks.filterMap (fun chunk =>
    match chunk.jupyter_data, chunk.jupyter_metadata with
    | some d, some m => some (d, m)
    | _, _ => none)

/-- Every branch of `JupyterRuntime.__init__` sets `external_kernel = True`. -/
theorem init_external_kernel (kernel_name : String) (options : MagmaOptions) :
    (JupyterRuntime.init kernel_name options).external_kernel = true := by
  unfold JupyterRuntime.init
  split
  · rfl
  · split <;> rfl

/-- C1.  The claim says `run` creates and enqueues a brand-new HOLD-status output
for the span.  In the code, `MagmaBuffer.run_code` stores the return value of
`JupyterRuntime.run_code` — which is Python `None`, not an `Output` — as the
span's ledger entry, so the entry appended for the span is `none`. -/
theorem run_code_stores_python_none (mb : MagmaBuffer) (code : String) (span : Span) :
    (mb.run_code code span).outputs.getLast? = some (span, (none : Option Output)) := by
  unfold MagmaBuffer.run_code MagmaBuffer.check_if_done_running JupyterRuntime.run_code
  split <;> dsimp only <;> split <;>
    simp [List.getLast?_concat]

/-- C2.  For every runtime produced by `JupyterRuntime.__init__`, processing an
`execute_input` message records the kernel-assigned execution count on the
output but leaves its status (and everything else) unchanged, because the
status-advance block is guarded by `external_kernel is False` and every
constructor branch sets `external_kernel = True`. -/
theorem execute_input_leaves_status_unchanged (kernel_name : String)
    (options : MagmaOptions) (avail : RenderAvail) (out : Output) (n : Int)
    (hsc : out.should_clear = false) :
    (JupyterRuntime.init kernel_name options).tick_one avail out
        (Message.execute_input n) =
      .ok (JupyterRuntime.init kernel_name options,
           { out with execution_count := some n }, true) := by
  unfold JupyterRuntime.tick_one
  simp [hsc, init_external_kernel]

/-- Witness for C2 at kernel name "python3" and a fresh HOLD output. -/
theorem execute_input_leaves_status_unchanged_witness :
    (JupyterRuntime.init "python3" {}).tick_one {} (Output.new none)
        (Message.execute_input 1) =
      .ok (JupyterRuntime.init "python3" {},
           { Output.new none with execution_count := some 1 }, true) :=
  execute_input_leaves_status_unchanged "python3" {} {} (Output.new none) 1 rfl

/-- C7.  The claim says shutdown terminates the kernel process/connection.  In the
code, `deinit` calls `kernel_client.shutdown()` only `if self.external_kernel is
False`, and every branch of `__init__` sets `external_kernel = True`, so for
every session the constructor can produce, teardown never shuts the kernel
down (the temp files are still removed from the file system). -/
theorem deinit_never_shuts_down_kernel (kernel_name : String)
    (options : MagmaOptions) (fs : List String) :
    ((JupyterRuntime.init kernel_name options).deinit fs).2 = false := by
  unfold JupyterRuntime.deinit
  simp [init_external_kernel]

/-- C10.  Whatever chunk mime resolution produces — any renderer availability, any
bundle, including the "no usable mimetype" fallback — carries the raw
`(data, metadata)` pair and is therefore kept by the persistence filter of
`save`; chunks constructed directly (error, aborted, mimetype-debug and stream
text chunks) keep both raw fields `None` and are dropped from the saved cells. -/
theorem raw_bundle_persistence (rt : JupyterRuntime) (avail : RenderAvail)
    (data metadata : MimeBundle) (out : Output) :
    (to_outputchunk rt avail data metadata).1.jupyter_data = some data
    ∧ (to_outputchunk rt avail data metadata).1.jupyter_metadata = some metadata
    ∧ savedChunksOf
        { out with chunks := out.chunks ++ [(to_outputchunk rt avail data metadata).1] }
        = savedChunksOf out ++ [(data, metadata)]
    ∧ (∀ c : OutputChunk, c.jupyter_data = none ∨ c.jupyter_metadata = none →
        savedChunksOf { out with chunks := out.chunks ++ [c] } = savedChunksOf out)
    ∧ (∀ name msg tb, (ErrorOutputChunk name msg tb).jupyter_data = none)
    ∧ AbortedOutputChunk.jupyter_data = none
    ∧ (∀ mts, (MimetypesOutputChunk mts).jupyter_data = none)
    ∧ (∀ text, (TextOutputChunk text).jupyter_data = none) := by
  have hattach : (to_outputchunk rt avail data metadata).1.jupyter_data = some data
      ∧ (to_outputchunk rt avail data metadata).1.jupyter_metadata = some metadata := by
    unfold to_outputchunk
    repeat' split
    all_goals exact ⟨rfl, rfl⟩
  refine ⟨hattach.1, hattach.2, ?_, ?_, fun _ _ _ => rfl, rfl, fun _ => rfl, fun _ => rfl⟩
  · unfold savedChunksOf
    simp only [List.filterMap_append, hattach.1, hattach.2, List.filterMap_cons,
      List.filterMap_nil]
  · intro c hc
    unfold savedChunksOf
    simp only [List.filterMap_append, List.filterMap_cons]
    rcases hc with h | h
    · rw [h]
      simp
    · rw [h]
      cases c.jupyter_data <;> simp


/-- A ready runtime with no allocated files, for concrete evaluations. -/
def rtIdle : JupyterRuntime :=
  { state := RuntimeState.IDLE
    kernel_name := "python3"
    external_kernel := true
    allocated_files := []
    options := {} }

/-- A finished (DONE) output with no chunks, for concrete evaluations. -/
def outDone : Output :=
  { Output.new (some 1) with status := OutputStatus.DONE }

/-- A HOLD output already holding one text chunk, for concrete evaluations. -/
def outWithChunk : Output :=
  { Output.new (some 1) with chunks := [TextOutputChunk "before"] }

/-- Appending a chunk never changes the output status. -/
theorem append_chunk_status (rt : JupyterRuntime) (avail : RenderAvail) (output : Output)
    (d m : MimeBundle) :
    ((rt.append_chunk avail output d m).2).status = output.status := by
  unfold JupyterRuntime.append_chunk
  split <;> rfl

set_option maxHeartbeats 2000000 in
/-- One `_tick_one` step never lowers the output status (the only status writes are
HOLD to RUNNING, RUNNING to DONE, and anything to DONE). -/
theorem tick_one_status_le (rt : JupyterRuntime) (avail : RenderAvail) (out : Output)
    (msg : Message) (rt1 : JupyterRuntime) (out1 : Output) (did : Bool)
    (h : rt.tick_one avail out msg = .ok (rt1, out1, did)) :
    out.status.value ≤ out1.status.value := by
  obtain ⟨ec, chs, st, suc, old, sc⟩ := out
  cases msg <;> cases sc <;> cases st <;>
    (unfold JupyterRuntime.tick_one at h) <;>
    (repeat' split at h)
  all_goals (try exact Except.noConfusion h)
  all_goals
    simp only [Except.ok.injEq, Prod.mk.injEq] at h
  all_goals
    obtain ⟨h1, h2, h3⟩ := h
  all_goals
    subst h2
  all_goals
    simp [OutputStatus.value, append_chunk_status]

/-- C9.  Over any sequence of messages drained in one call, the output status only
moves forward along the HOLD, RUNNING, DONE order and never regresses. -/
theorem status_monotone_over_drain (avail : RenderAvail) :
    ∀ (msgs : List (Option Message)) (rt : JupyterRuntime) (out : Output)
      (rt1 : JupyterRuntime) (out1 : Output) (rest : List (Option Message)) (did : Bool),
      rt.tick_loop avail out msgs = .ok (rt1, out1, rest, did) →
      out.status.value ≤ out1.status.value := by
  intro msgs
  induction msgs with
  | nil =>
      intro rt out rt1 out1 rest did h
      simp only [JupyterRuntime.tick_loop, Except.ok.injEq, Prod.mk.injEq] at h
      rw [h.2.1]
  | cons head tail ih =>
      intro rt out rt1 out1 rest did h
      cases head with
      | none =>
          simp only [JupyterRuntime.tick_loop] at h
          exact ih rt out rt1 out1 rest did h
      | some msg =>
          simp only [JupyterRuntime.tick_loop] at h
          cases hto : rt.tick_one avail out msg with
          | error e => rw [hto] at h; cases h
          | ok trip =>
              obtain ⟨rta, outa, dida⟩ := trip
              rw [hto] at h
              have h1 := tick_one_status_le rt avail out msg rta outa dida hto
              by_cases hd : (outa.status == OutputStatus.DONE) = true
              · simp only [hd, if_true] at h
                simp only [Except.ok.injEq, Prod.mk.injEq] at h
                rw [h.2.1] at h1
                exact h1
              · simp only [hd, if_false, Bool.false_eq_true] at h
                cases hrec : rta.tick_loop avail outa tail with
                | error e => rw [hrec] at h; cases h
                | ok quad =>
                    obtain ⟨rtb, outb, restb, didb⟩ := quad
                    rw [hrec] at h
                    simp only [Except.ok.injEq, Prod.mk.injEq] at h
                    have h2 := ih rta outa rtb outb restb didb hrec
                    rw [h.2.1] at h2
                    omega

/-- Witness for C9: draining a single idle status message moves a HOLD output to
DONE, a forward move. -/
theorem status_monotone_over_drain_witness :
    (Output.new none).status.value ≤
      ({ Output.new none with status := OutputStatus.DONE } : Output).status.value :=
  status_monotone_over_drain {} [some (Message.status "idle")] rtIdle (Output.new none)
    { rtIdle with state := RuntimeState.IDLE }
    { Output.new none with status := OutputStatus.DONE } [] true rfl

/-- The drain loop only stops by emptying the queue or at a DONE output. -/
theorem tick_loop_stops (avail : RenderAvail) :
    ∀ (msgs : List (Option Message)) (rt : JupyterRuntime) (out : Output)
      (rt1 : JupyterRuntime) (out1 : Output) (rest : List (Option Message)) (did : Bool),
      rt.tick_loop avail out msgs = .ok (rt1, out1, rest, did) →
      rest = [] ∨ out1.status = OutputStatus.DONE := by
  intro msgs
  induction msgs with
  | nil =>
      intro rt out rt1 out1 rest did h
      simp only [JupyterRuntime.tick_loop, Except.ok.injEq, Prod.mk.injEq] at h
      exact Or.inl h.2.2.1.symm
  | cons head tail ih =>
      intro rt out rt1 out1 rest did h
      cases head with
      | none =>
          simp only [JupyterRuntime.tick_loop] at h
          exact ih rt out rt1 out1 rest did h
      | some msg =>
          simp only [JupyterRuntime.tick_loop] at h
          cases hto : rt.tick_one avail out msg with
          | error e => rw [hto] at h; cases h
          | ok trip =>
              obtain ⟨rta, outa, dida⟩ := trip
              rw [hto] at h
              by_cases hd : (outa.status == OutputStatus.DONE) = true
              · simp only [hd, if_true] at h
                simp only [Except.ok.injEq, Prod.mk.injEq] at h
                right
                rw [← h.2.1]
                exact of_decide_eq_true hd
              · simp only [hd, if_false, Bool.false_eq_true] at h
                cases hrec : rta.tick_loop avail outa tail with
                | error e => rw [hrec] at h; cases h
                | ok quad =>
                    obtain ⟨rtb, outb, restb, didb⟩ := quad
                    rw [hrec] at h
                    simp only [Except.ok.injEq, Prod.mk.injEq] at h
                    have h2 := ih rta outa rtb outb restb didb hrec
                    rcases h2 with h2 | h2
                    · exact Or.inl (h.2.2.1 ▸ h2)
                    · exact Or.inr (h.2.1 ▸ h2)

/-- C5 counterexample: the claim says a message arriving after DONE is left for the
next tick.  Here drain is entered with an already-DONE output and one queued
stream message; the code still consumes and processes that message (the DONE
test only runs after a message has been handled), leaving the queue empty and
the output mutated instead of untouched. -/
theorem drain_on_done_output_consumes_message :
    rtIdle.tick {} false (some outDone) [some (Message.stream "late")] =
      .ok (rtIdle, some { outDone with chunks := [TextOutputChunk "late"] }, [], true)
    ∧ outDone.status = OutputStatus.DONE :=
  ⟨rfl, rfl⟩

/-- C5 (amended).  For a ready session, drain called with an empty inbound queue
returns immediately with `did_work = false` and no state change; and whenever
the drain loop returns, it has either emptied the queue or stopped at the first
message whose processing left the output DONE — messages queued after that
point stay queued.  (A drain *entered* with an already-DONE output still
processes one message, which is the correction to the claim.) -/
theorem drain_termination (rt : JupyterRuntime) (avail : RenderAvail) (ready_now : Bool)
    (out : Output) (msgs : List (Option Message)) (rt1 : JupyterRuntime)
    (out1 : Option Output) (rest : List (Option Message)) (did : Bool)
    (hready : rt.is_ready = true) :
    rt.tick avail ready_now (some out) [] = .ok (rt, some out, [], false)
    ∧ (rt.tick avail ready_now (some out) msgs = .ok (rt1, out1, rest, did) →
        rest = [] ∨ ∃ o, out1 = some o ∧ o.status = OutputStatus.DONE) := by
  constructor
  · unfold JupyterRuntime.tick
    rw [hready, if_neg (by decide)]
    rfl
  · intro h
    unfold JupyterRuntime.tick at h
    rw [hready, if_neg (by decide)] at h
    dsimp only at h
    cases hrec : rt.tick_loop avail out msgs with
    | error e => rw [hrec] at h; cases h
    | ok quad =>
        obtain ⟨rtb, outb, restb, didb⟩ := quad
        rw [hrec] at h
        simp only [Except.ok.injEq, Prod.mk.injEq] at h
        rcases tick_loop_stops avail msgs rt out rtb outb restb didb hrec with hs | hs
        · exact Or.inl (h.2.2.1 ▸ hs)
        · exact Or.inr ⟨outb, h.2.1.symm, hs⟩

/-- Witness for C5: a ready runtime drained with no queued messages does nothing. -/
theorem drain_termination_witness :
    rtIdle.tick {} false (some (Output.new none)) [] =
      .ok (rtIdle, some (Output.new none), [], false) :=
  (drain_termination rtIdle {} false (Output.new none) [] rtIdle
    (some (Output.new none)) [] false rfl).1

/-- C6 counterexample: the claim says a deferred clear waits until the next chunk
actually arrives.  Here `clear_output` with `wait` is followed by an
`execute_reply`, which appends no chunk — yet the pending clear fires while
processing it and the prior chunks are gone. -/
theorem deferred_clear_fires_on_chunkless_message :
    rtIdle.tick_loop {} outWithChunk
        [some (Message.clear_output true), some Message.execute_reply] =
      .ok (rtIdle, { outWithChunk with chunks := [], should_clear := false }, [], true)
    ∧ outWithChunk.chunks = [TextOutputChunk "before"] :=
  ⟨rfl, rfl⟩

/-- C6 (amended).  `clear_output` without the wait flag clears the chunk list
immediately; with the wait flag it only sets the pending-clear flag, deferring
the clear to the processing of the *next drained message of any kind* (not
specifically the next chunk).  In the deferred case the prior chunks are
cleared exactly once and never reappear, and chunks accumulate again starting
from the first post-clear chunk: clear-then-stream leaves exactly the new
stream chunk. -/
theorem clear_output_semantics (rt : JupyterRuntime) (avail : RenderAvail) (out : Output)
    (s : String) (hsc : out.should_clear = false) (hnd : out.status ≠ OutputStatus.DONE) :
    rt.tick_one avail out (Message.clear_output false) =
      .ok (rt, { out with chunks := [] }, true)
    ∧ rt.tick_one avail out (Message.clear_output true) =
      .ok (rt, { out with should_clear := true }, true)
    ∧ rt.tick_loop avail out
        [some (Message.clear_output true), some (Message.stream s)] =
      .ok (rt, { out with chunks := [TextOutputChunk s], should_clear := false },
           [], true) := by
  obtain ⟨ec, chs, st, suc, old, sc⟩ := out
  simp only at hsc
  subst hsc
  refine ⟨?_, ?_, ?_⟩ <;>
    cases st <;>
      first
      | exact absurd rfl hnd
      | rfl

/-- Witness for C6: the clear-then-stream scenario on a concrete output holding one
prior chunk. -/
theorem clear_output_semantics_witness :
    rtIdle.tick_loop {} outWithChunk
        [some (Message.clear_output true), some (Message.stream "after")] =
      .ok (rtIdle,
           { outWithChunk with chunks := [TextOutputChunk "after"], should_clear := false },
           [], true) :=
  (clear_output_semantics rtIdle {} outWithChunk "after" rfl (by decide)).2.2

/-- Witness for C10: appending an `AbortedOutputChunk` (raw fields `None`) adds
nothing to the persisted chunk list. -/
theorem raw_bundle_persistence_witness :
    savedChunksOf
        { Output.new none with chunks := (Output.new none).chunks ++ [AbortedOutputChunk] }
      = savedChunksOf (Output.new none) :=
  (raw_bundle_persistence rtIdle {} [] [] (Output.new none)).2.2.2.1
    AbortedOutputChunk (Or.inl rfl)

/-- A successful `find?` splits its list into a prefix of misses followed by the
hit. -/
theorem find?_some_split {α : Type} (p : α → Bool) :
    ∀ (l : List α) (a : α), l.find? p = some a →
      ∃ l1 l2, l = l1 ++ a :: l2 ∧ ∀ x ∈ l1, p x = false := by
  intro l
  induction l with
  | nil => intro a h; cases h
  | cons b t ih =>
      intro a h
      by_cases hb : p b = true
      · rw [List.find?_cons_of_pos _ hb] at h
        obtain rfl : b = a := by injection h
        exact ⟨[], t, rfl, by simp⟩
      · rw [List.find?_cons_of_neg _ hb] at h
        obtain ⟨l1, l2, hsplit, hall⟩ := ih a h
        refine ⟨b :: l1, l2, by rw [hsplit]; rfl, ?_⟩
        intro x hx
        rcases List.mem_cons.mp hx with rfl | hx
        · exact Bool.eq_false_iff.mpr hb
        · exact hall x hx

/-- C8.  `select` only returns spans containing the position; when several
registered spans contain it, the returned one is the hit of a reverse
insertion-order scan — every span registered after it fails to contain the
position, so the most recently created containing span wins; and it returns
nothing exactly when no registered span contains the position. -/
theorem select_returns_most_recent_containing_span (mb : MagmaBuffer) (pos : Position) :
    (∀ s, mb.get_selected_span pos = some s → s.contains pos = true)
    ∧ (mb.get_selected_span pos = none ↔
        ∀ s ∈ mb.outputs.map Prod.fst, s.contains pos = false)
    ∧ (∀ s, mb.get_selected_span pos = some s →
        ∃ l1 l2, mb.outputs.map Prod.fst = l1 ++ s :: l2
          ∧ ∀ t ∈ l2, t.contains pos = false) := by
  refine ⟨?_, ?_, ?_⟩
  · intro s hs
    unfold MagmaBuffer.get_selected_span at hs
    have h2 := List.find?_some hs
    exact h2
  · unfold MagmaBuffer.get_selected_span
    rw [List.find?_eq_none]
    constructor
    · intro h s hmem
      exact Bool.eq_false_iff.mpr (h s (List.mem_reverse.mpr hmem))
    · intro h x hx
      have hfalse := h x (List.mem_reverse.mp hx)
      simp [hfalse]
  · intro s hs
    unfold MagmaBuffer.get_selected_span at hs
    obtain ⟨r1, r2, hsplit, hall⟩ := find?_some_split _ _ _ hs
    refine ⟨r2.reverse, r1.reverse, ?_, ?_⟩
    · have hkeys : mb.outputs.map Prod.fst = (r1 ++ s :: r2).reverse := by
        rw [← hsplit, List.reverse_reverse]
      rw [hkeys]
      simp [List.reverse_append, List.reverse_cons, List.append_assoc]
    · intro t ht
      exact hall t (List.mem_reverse.mp ht)

/-- An older span over lines 0-2 of buffer 1. -/
def spanA : Span :=
  { id := 0
    begin_pos := { bufno := 1, lineno := 0, colno := 0 }
    end_pos := { bufno := 1, lineno := 2, colno := 0 } }

/-- A newer span over lines 1-3 of buffer 1, overlapping `spanA`. -/
def spanB : Span :=
  { id := 1
    begin_pos := { bufno := 1, lineno := 1, colno := 0 }
    end_pos := { bufno := 1, lineno := 3, colno := 0 } }

/-- A ledger holding the two overlapping spans, `spanA` registered first. -/
def mbOverlap : MagmaBuffer :=
  { MagmaBuffer.init 1 {} "python3" with outputs := [(spanA, none), (spanB, none)] }

/-- A cursor position inside the overlap of `spanA` and `spanB`. -/
def posOverlap : Position :=
  { bufno := 1, lineno := 1, colno := 5 }

/-- Witness for C8: with two overlapping spans registered at different times and the
cursor in the overlap, `select` answers the newer `spanB`, and it contains the
position. -/
theorem select_returns_most_recent_containing_span_witness :
    spanB.contains posOverlap = true :=
  (select_returns_most_recent_containing_span mbOverlap posOverlap).1 spanB rfl

/-- A span over line 0 of buffer 1, for the round-trip evaluation. -/
def spanEx : Span :=
  { id := 0
    begin_pos := { bufno := 1, lineno := 0, colno := 0 }
    end_pos := { bufno := 1, lineno := 1, colno := 0 } }

/-- A persisted-worthy text chunk carrying its raw mime bundle. -/
def chunkEx : OutputChunk :=
  { kind := ChunkKind.text "2\n"
    jupyter_data := some [("text/plain", "2")]
    jupyter_metadata := some [] }

/-- A ledger value for `spanEx`: a finished, failed execution with one chunk. -/
def obEx : OutputBuffer :=
  { output :=
    { execution_count := some 1
      chunks := [chunkEx]
      status := OutputStatus.DONE
      success := false
      old := false
      should_clear := false } }

/-- C3.  The claim says save-then-load against the unmodified document reproduces
statuses, success flags and chunk mime bundles.  Evaluating io.py's `save`
followed by its `load` on a one-cell ledger: the span coordinates come back,
but the ledger entry stored by `load` is a fresh `OutputBuffer` holding
`Output(None)` — HOLD status, `success = True`, no chunks — because `load`
builds the reconstructed output and then discards it. -/
theorem save_load_roundtrip_discards_output :
    load "ck" rtIdle {} 1 100 [] (save "python3" "ck" [(spanEx, obEx)]) =
      ([({ id := 100
           begin_pos := { bufno := 1, lineno := 0, colno := 0 }
           end_pos := { bufno := 1, lineno := 1, colno := 0 } }, OutputBuffer.new)],
       rtIdle, 101, .ok ())
    ∧ OutputBuffer.new.output.status ≠ obEx.output.status
    ∧ OutputBuffer.new.output.chunks = [] := by
  refine ⟨rfl, by decide, rfl⟩

/-- Every branch of `JupyterRuntime.__init__` starts with no allocated files. -/
theorem init_allocated_files (kernel_name : String) (options : MagmaOptions) :
    (JupyterRuntime.init kernel_name options).allocated_files = [] := by
  unfold JupyterRuntime.init
  split
  · rfl
  · split <;> rfl

/-- Filtering a buffer number absent from the registry is the identity. -/
theorem buffers_filter_id (buffers : List (Int × MagmaBuffer)) (bufno : Int)
    (h : buffers.find? (fun kv => kv.1 == bufno) = none) :
    buffers.filter (fun kv => !(kv.1 == bufno)) = buffers := by
  apply List.filter_eq_self.mpr
  intro a ha
  have h2 := List.find?_eq_none.mp h a ha
  simpa using h2

/-- C4.  Loading a payload whose checksum differs from the current document always
fails with the structured load error, tears the partially-initialized session
down before surfacing it (the freshly created buffer is the one `_deinit_buffer`
receives), and leaves the registry — and hence every ledger — exactly as it
was, with nothing added. -/
theorem checksum_mismatch_load_fails_cleanly (plugin : Magma) (cur_bufno : Int)
    (doc_checksum : String) (options : MagmaOptions) (avail : RenderAvail)
    (fs : List String) (next_span_id : Nat) (data : SaveData)
    (hfree : plugin.get_buffer cur_bufno = none)
    (hver : data.version = 1)
    (hck : (doc_checksum == data.content_checksum) = false) :
    plugin.command_load cur_bufno doc_checksum options avail fs next_span_id data =
      (plugin, [MagmaBuffer.init cur_bufno options data.kernel], fs,
        .error (PyExc.magmaException
          "Error while doing Magma IO: Buffer contents\x27 checksum does not match!")) := by
  have hfind : plugin.buffers.find? (fun kv => kv.1 == cur_bufno) = none := by
    unfold Magma.get_buffer at hfree
    cases hf : plugin.buffers.find? (fun kv => kv.1 == cur_bufno) with
    | none => rfl
    | some kv => rw [hf] at hfree; cases hfree
  unfold Magma.command_load
  rw [hfree]
  unfold Magma.initialize_buffer MagmaBuffer.load Magma.deinit_buffer
    JupyterRuntime.deinit MagmaBuffer.init
  simp only [hver, hck, beq_self_eq_true, Bool.not_true, Bool.not_false,
    Bool.false_eq_true, if_false, if_true, init_allocated_files, List.foldl_nil,
    List.filter_append, List.filter_cons, List.filter_nil]
  simp [buffers_filter_id plugin.buffers cur_bufno hfind]

/-- Witness for C4 on an empty registry and a payload saved under a different
checksum. -/
theorem checksum_mismatch_load_fails_cleanly_witness :
    Magma.command_load { buffers := [] } 7 "aaa" {} {} ["f"] 0
        { version := 1, kernel := "python3", content_checksum := "bbb", cells := [] } =
      ({ buffers := [] }, [MagmaBuffer.init 7 {} "python3"], ["f"],
        .error (PyExc.magmaException
          "Error while doing Magma IO: Buffer contents\x27 checksum does not match!")) :=
  checksum_mismatch_load_fails_cleanly { buffers := [] } 7 "aaa" {} {} ["f"] 0
    { version := 1, kernel := "python3", content_checksum := "bbb", cells := [] }
    rfl rfl rfl

end MagmaNvim
